import Mathlib

/-!
Shallow embedding of `main.go` of the wishbone RFID door-lock daemon, and
theorems settling the specification claims about it.

Conventions:
* GPIO pin levels are `Bool` (`true` = `rpio.High`, `false` = `rpio.Low`).
* Time is measured in whole seconds as a `Nat`.
* Side effects (log lines, pin writes, sleeps, HTTP responses) are recorded
  as explicit event lists.
-/

namespace Wishbone

/-- Go: `type SphincterStatus int`. -/
abbrev SphincterStatus := Nat

/-- Go: `UNKNOWN = 0`. -/
def UNKNOWN : SphincterStatus := 0

/-- Go: `LOCKED = 1`. -/
def LOCKED : SphincterStatus := 1

/-- Go: `UNLOCKED = 2`. -/
def UNLOCKED : SphincterStatus := 2

/-- Go: `FAILURE = 3`. -/
def FAILURE : SphincterStatus := 3

/-- The two output pins of the actuator, Go globals `OpenPin` / `ClosePin`. -/
inductive GoPin
| OpenPin
| ClosePin
deriving DecidableEq

/-- Observable side effects of the handler, the reader loop and the command
executor: log lines, pin writes, sleeps and HTTP responses. -/
inductive Event
| logRequest
| logLine (s : String)
| logHello (msg username : String)
| logNotFound (msg : String)
| pinHigh (p : GoPin)
| sleepSec (n : Nat)
| pinLow (p : GoPin)
| respond (s : String)
deriving DecidableEq

/-- Go `isValid`: strip every `'F'` and every `'0'` from the token
(`strings.ReplaceAll` with a one-character pattern and empty replacement
removes every occurrence of that character) and test whether anything is
left. -/
def isValid (token : String) : Bool :=
  let t1 := token.toList.filter (fun c => c != 'F')
  let t2 := t1.filter (fun c => c != '0')
  t2.length > 0

/-- The levels of the two status input pins over time: `pin0 t` / `pin1 t` is
the level a `Read()` performed at read-instant `t` observes.  Each `Read()`
call advances the instant by one, so a run of `updateSphincterStatus` that
performs `k` reads observes instants `0, …, k-1`. -/
structure SensorLines where
  pin0 : Nat → Bool
  pin1 : Nat → Bool

/-- One conjunction `StatusPin0.Read() == want0 && StatusPin1.Read() == want1`
from the Go source, with Go's left-to-right short-circuit evaluation: the
second pin is read only when the first comparison succeeds.  Returns the
truth value of the conjunction and the next read instant. -/
def readCond (lines : SensorLines) (t : Nat) (want0 want1 : Bool) : Bool × Nat :=
  if lines.pin0 t = want0 then
    (lines.pin1 (t + 1) = want1, t + 2)
  else
    (false, t + 1)

/-- Go `updateSphincterStatus`: four successive `if` statements, each
re-reading the status pins, each assigning the package-level variable
`sphincterStatus` when its condition holds; the function returns the final
value of that variable.  `prev` is the value of the global before the call
(the global keeps its old value when no condition fires).  The result pairs
the returned status with the total number of pin reads performed. -/
def updateSphincterStatus (lines : SensorLines) (prev : SphincterStatus) :
    SphincterStatus × Nat :=
  let r1 := readCond lines 0 false false
  let s1 := if r1.1 then UNKNOWN else prev
  let r2 := readCond lines r1.2 true true
  let s2 := if r2.1 then FAILURE else s1
  let r3 := readCond lines r2.2 true false
  let s3 := if r3.1 then UNLOCKED else s2
  let r4 := readCond lines r3.2 false true
  let s4 := if r4.1 then LOCKED else s3
  (s4, r4.2)

/-- Sensor lines that hold constant levels for the whole call. -/
def constLines (p0 p1 : Bool) : SensorLines :=
  ⟨fun _ => p0, fun _ => p1⟩

/-- Stated from the spec (§3), for comparison with the source: the door-state
mapping of one instantaneous snapshot of the two sensor lines —
low/low → Unknown, high/high → Failure, high/low → Unlocked,
low/high → Locked. -/
def specDoorState (p0 p1 : Bool) : SphincterStatus :=
  if !p0 && !p1 then UNKNOWN
  else if p0 && p1 then FAILURE
  else if p0 && !p1 then UNLOCKED
  else LOCKED

/-- The `/sphincter` HTTP handler registered in `main`: logs the request,
ignores non-GET requests, then switches on the `action` query parameter.
The handler closure never reads or writes the debounce timestamp
`latestTimestamp`; the model threads it through unchanged to make that
observable. -/
def sphincterHandler (method action : String) (latestTimestamp : Nat) :
    List Event × Nat :=
  if method != "GET" then
    ([Event.logRequest, Event.logLine "Ignoring non-GET request."], latestTimestamp)
  else if action == "state" then
    ([Event.logRequest, Event.respond "UNLOCKED"], latestTimestamp)
  else if action == "unlock" then
    ([Event.logRequest, Event.pinHigh GoPin.OpenPin, Event.sleepSec 1,
      Event.pinLow GoPin.OpenPin, Event.respond "UNLOCKED"], latestTimestamp)
  else if action == "lock" then
    ([Event.logRequest, Event.respond "LOCKED"], latestTimestamp)
  else
    ([Event.logRequest,
      Event.respond "action parameter must be one of status, lock or unlock"],
     latestTimestamp)

/-- Predicate selecting pin-mutation events. -/
def isPinWrite : Event → Bool
| Event.pinHigh _ => true
| Event.pinLow _ => true
| _ => false

/-- One iteration of the reader loop in `main` (the body of
`for msg := range getRFIDToken(&port)`): first the debounce check
`time.Since(latestTimestamp) < 5*time.Second`, then the `users[msg]` map
lookup; on a hit the timestamp is set to `now` and the Open pin is pulsed;
on a miss, `isValid` only decides whether a log line is emitted.  Returns
the new value of `latestTimestamp` and the events of this iteration. -/
def readerLoopStep (users : List (String × String)) (latestTimestamp now : Nat)
    (msg : String) : Nat × List Event :=
  if now - latestTimestamp < 5 then
    (latestTimestamp, [Event.logLine "Triggered too fast; skipped unlock"])
  else
    match users.lookup msg with
    | some username =>
        (now, [Event.logHello msg username, Event.pinHigh GoPin.OpenPin,
               Event.sleepSec 1, Event.pinLow GoPin.OpenPin])
    | none =>
        (latestTimestamp, if isValid msg then [Event.logNotFound msg] else [])

/-- One `Read` on the underlying serial port, as seen through the `io.Reader`
interface: either a non-deterministically sized chunk of bytes, or an I/O
error. -/
inductive ReadResult
| chunk (bs : List Nat)
| ioError
deriving DecidableEq

/-- Bytes of one well-delimited frame: start byte `0x02`, payload, end byte
`0x03`. -/
def frameBytes (payload : List Nat) : List Nat :=
  2 :: payload ++ [3]

/-- Split a chunk at the first end-of-frame byte `0x03`: returns the part up
to and including the delimiter and the leftover after it, or `none` when the
chunk holds no delimiter. -/
def splitAtDelim : List Nat → Option (List Nat × List Nat)
| [] => none
| b :: rest =>
    if b = 3 then some ([3], rest)
    else
      match splitAtDelim rest with
      | some (pre, post) => some (b :: pre, post)
      | none => none

/-- Go `rd.ReadBytes('\x03')` for the reader created by one iteration of the
`getRFIDToken` goroutine.  The source constructs `bufio.NewReader(*port)`
afresh inside the loop, so each call starts with an empty buffer, pulls
chunks from the port until one contains `0x03`, and returns everything up to
and including the delimiter; the bytes of that chunk beyond the delimiter
remain in the discarded reader's buffer and are lost.  An I/O error from
the port (including end of stream) is surfaced as `none`, on which the
goroutine panics. -/
def readFrame : List ReadResult → List Nat → Option (List Nat × List ReadResult)
| [], _ => none
| ReadResult.ioError :: _, _ => none
| ReadResult.chunk bs :: rest, acc =>
    match splitAtDelim bs with
    | some (pre, _post) => some (acc ++ pre, rest)
    | none => readFrame rest (acc ++ bs)

/-- Go `strings.Replace(s, "\x03", "", -1)` followed by
`strings.Replace(s, "\x02", "", -1)`: remove every end delimiter, then every
start delimiter. -/
def stripDelims (bs : List Nat) : List Nat :=
  (bs.filter (fun b => b != 3)).filter (fun b => b != 2)

/-- The `getRFIDToken` goroutine run over a finite port prefix: repeatedly
build a fresh buffered reader, read one frame, strip the delimiters, emit the
token; `panic(err)` on a read error is recorded by the `Bool` (`true` =
panicked).  `fuel` bounds the number of iterations; any `fuel` larger than
the chunk count is exact, since every frame consumes at least one chunk. -/
def framerRunF : Nat → List ReadResult → List (List Nat) × Bool
| 0, _ => ([], false)
| fuel + 1, chunks =>
    match readFrame chunks [] with
    | none => ([], true)
    | some (res, rest) =>
        let out := framerRunF fuel rest
        (stripDelims res :: out.1, out.2)

/-- The top-level statements of `main`, in source order.
`startCmdExecutor` stands for a call to `setupSphincterCmdChannel`; the
constructor exists so that its absence from `mainStmts` can be stated. -/
inductive Stmt
| rpioOpen
| configurePins
| parseList
| serialOpen
| registerHandler
| startCmdExecutor
| listenAndServe
| logInitialized
| readerLoop
deriving DecidableEq

/-- The statement sequence of `main` in `main.go`: GPIO setup, user-list
parse, serial open, handler registration, the blocking
`http.ListenAndServe(":8001", nil)`, the "Initialized" log line, and the
reader loop.  `setupSphincterCmdChannel` is never called. -/
def mainStmts : List Stmt :=
  [Stmt.rpioOpen, Stmt.configurePins, Stmt.parseList, Stmt.serialOpen,
   Stmt.registerHandler, Stmt.listenAndServe, Stmt.logInitialized,
   Stmt.readerLoop]

/-- Events of a run of `main`. -/
inductive MEvent
| setupStep (s : Stmt)
| serveReturned
| readerEvent (e : Event)
deriving DecidableEq

/-- Execute one statement of `main`.  `serveFails` tells whether
`http.ListenAndServe` ever returns (it returns only when serving fails;
otherwise it blocks forever).  `loopEvents` abstracts the events the reader
loop produces once (and if) it runs.  The `Bool` says whether control flows
past the statement. -/
def runStmt (serveFails : Bool) (loopEvents : List Event) :
    Stmt → List MEvent × Bool
| Stmt.listenAndServe => (if serveFails then [MEvent.serveReturned] else [], serveFails)
| Stmt.readerLoop => (loopEvents.map MEvent.readerEvent, true)
| s => ([MEvent.setupStep s], true)

/-- Run a statement sequence, stopping at a statement that blocks forever. -/
def runStmts (serveFails : Bool) (loopEvents : List Event) :
    List Stmt → List MEvent
| [] => []
| s :: rest =>
    let r := runStmt serveFails loopEvents s
    if r.2 then r.1 ++ runStmts serveFails loopEvents rest else r.1

/-- The observable trace of `main`. -/
def mainTrace (serveFails : Bool) (loopEvents : List Event) : List MEvent :=
  runStmts serveFails loopEvents mainStmts

/-- Body of the `setupSphincterCmdChannel` executor for one received command
string (the Go `switch` on `cmd`). -/
def cmdExecutorStep (cmd : String) : List Event :=
  if cmd == "open" then
    [Event.pinHigh GoPin.OpenPin, Event.sleepSec 1, Event.pinLow GoPin.OpenPin]
  else if cmd == "close" then
    [Event.pinHigh GoPin.ClosePin, Event.sleepSec 1, Event.pinLow GoPin.ClosePin]
  else
    [Event.logLine "unknown cmd received on CmdChan"]

/-- Atomic actions of one `action == "unlock"` handler invocation, as far as
the actuator pins are concerned: drive the Open pin High, sleep the dwell,
drive it Low, write the response. -/
inductive Act
| setHigh
| dwell
| setLow
| answer
deriving DecidableEq

/-- The pin-relevant body of the `"unlock"` branch of the HTTP handler. -/
def unlockHandlerProg : List Act :=
  [Act.setHigh, Act.dwell, Act.setLow, Act.answer]

/-- Events of a concurrent run, tagged with the goroutine that issued them.
Go's `net/http` runs each request handler in its own goroutine, so several
unlock handlers can be mid-pulse at once. -/
inductive CEvent
| pinHigh (issuer : Nat) (p : GoPin)
| sleepStart (issuer : Nat)
| pinLow (issuer : Nat) (p : GoPin)
| respond (issuer : Nat) (s : String)
deriving DecidableEq

/-- The event an unlock-handler goroutine `id` produces for one action. -/
def execAct (id : Nat) : Act → CEvent
| Act.setHigh => CEvent.pinHigh id GoPin.OpenPin
| Act.dwell => CEvent.sleepStart id
| Act.setLow => CEvent.pinLow id GoPin.OpenPin
| Act.answer => CEvent.respond id "UNLOCKED"

/-- Let goroutine `id` take one step: find its task, execute its next action,
return the event and the updated task list (`none` when `id` has no pending
action). -/
def stepTask : List (Nat × List Act) → Nat → Option (CEvent × List (Nat × List Act))
| [], _ => none
| (tid, prog) :: rest, id =>
    if tid = id then
      match prog with
      | [] => none
      | a :: tl => some (execAct id a, (tid, tl) :: rest)
    else
      match stepTask rest id with
      | some (e, rest2) => some (e, (tid, prog) :: rest2)
      | none => none

/-- Interleaved execution of concurrent goroutines under a schedule: at each
schedule entry the named goroutine performs its next atomic action. -/
def runSched : List Nat → List (Nat × List Act) → List CEvent
| [], _ => []
| id :: ids, tasks =>
    match stepTask tasks id with
    | some (e, tasks2) => e :: runSched ids tasks2
    | none => runSched ids tasks

/-- Pin-mutation events of a concurrent trace. -/
def isPinOp : CEvent → Bool
| CEvent.pinHigh _ _ => true
| CEvent.pinLow _ _ => true
| _ => false

/-- The pin-drive sub-trace of a concurrent trace. -/
def pinTrace (evs : List CEvent) : List CEvent :=
  evs.filter isPinOp

/-- The pin-drive trace consists of complete, non-overlapping pulses: a
High immediately followed by the matching Low of the same pin by the same
issuer, pulse after pulse. -/
def serializedPulses : List CEvent → Bool
| [] => true
| CEvent.pinHigh i p :: CEvent.pinLow j q :: rest =>
    i == j && p == q && serializedPulses rest
| _ => false

/-- Predicate selecting the events of the reader loop in a `main` trace. -/
def isReaderEvent : MEvent → Bool
| MEvent.readerEvent _ => true
| _ => false

/-- A concrete sensor history whose lines change during the status read:
`StatusPin0` is High for read instants `0, 1, 2` and Low afterwards, while
`StatusPin1` stays Low throughout.  Every instantaneous snapshot of this
history is high/low (Unlocked) or low/low (Unknown). -/
def tornLines : SensorLines :=
  ⟨fun t => decide (t < 3), fun _ => false⟩

/-- The trace of `main` when `http.ListenAndServe` never returns: the five
setup steps run and nothing else — in particular the reader loop never
starts. -/
theorem mainTrace_false_eq (loopEvents : List Event) :
    mainTrace false loopEvents =
      [MEvent.setupStep Stmt.rpioOpen, MEvent.setupStep Stmt.configurePins,
       MEvent.setupStep Stmt.parseList, MEvent.setupStep Stmt.serialOpen,
       MEvent.setupStep Stmt.registerHandler] := rfl

/-- The trace of `main` when `http.ListenAndServe` returns (which it does
only on a serve failure): setup, the return of the server, the
"Initialized" log, then the reader loop. -/
theorem mainTrace_true_eq (loopEvents : List Event) :
    mainTrace true loopEvents =
      [MEvent.setupStep Stmt.rpioOpen, MEvent.setupStep Stmt.configurePins,
       MEvent.setupStep Stmt.parseList, MEvent.setupStep Stmt.serialOpen,
       MEvent.setupStep Stmt.registerHandler, MEvent.serveReturned,
       MEvent.setupStep Stmt.logInitialized] ++ loopEvents.map MEvent.readerEvent := by
  simp [mainTrace, runStmts, runStmt, mainStmts]

/-- Claim C1: the claim says every pin pulse is issued by the single executor
consuming the command channel and that concurrently submitted commands yield
totally ordered, non-overlapping pulses.  The code does the opposite: `main`
never calls `setupSphincterCmdChannel` (the `startCmdExecutor` statement is
absent from `mainStmts`), each HTTP unlock handler drives `OpenPin` directly
in its own goroutine, and under the interleaving `1,2,1,2,…` of two
concurrent unlock handlers the pin-drive trace is High, High, Low, Low —
two overlapping pulses — whereas a fully sequential schedule would be
serialized. -/
theorem C1_unlock_overlap_and_executor_unused :
    runSched [1, 2, 1, 2, 1, 2, 1, 2]
        [(1, unlockHandlerProg), (2, unlockHandlerProg)] =
      [CEvent.pinHigh 1 GoPin.OpenPin, CEvent.pinHigh 2 GoPin.OpenPin,
       CEvent.sleepStart 1, CEvent.sleepStart 2,
       CEvent.pinLow 1 GoPin.OpenPin, CEvent.pinLow 2 GoPin.OpenPin,
       CEvent.respond 1 "UNLOCKED", CEvent.respond 2 "UNLOCKED"] ∧
    serializedPulses (pinTrace (runSched [1, 2, 1, 2, 1, 2, 1, 2]
        [(1, unlockHandlerProg), (2, unlockHandlerProg)])) = false ∧
    serializedPulses (pinTrace (runSched [1, 1, 1, 1, 2, 2, 2, 2]
        [(1, unlockHandlerProg), (2, unlockHandlerProg)])) = true ∧
    mainStmts.contains Stmt.startCmdExecutor = false := by
  decide

/-- Claim C2: the claim says a state query returns the door state the
monitor derives from the two sensor lines.  The code answers the fixed
string "UNLOCKED" for every state query, performs no pin access, and never
calls `updateSphincterStatus`; with the sensor lines at low/high the monitor
would derive `LOCKED`, not `UNLOCKED`. -/
theorem C2_state_response_fixed_despite_sensors :
    (∀ latestTimestamp : Nat,
      sphincterHandler "GET" "state" latestTimestamp =
        ([Event.logRequest, Event.respond "UNLOCKED"], latestTimestamp)) ∧
    (sphincterHandler "GET" "state" 0).1.filter isPinWrite = [] ∧
    (updateSphincterStatus (constLines false true) UNKNOWN).1 = LOCKED ∧
    (UNLOCKED == LOCKED) = false := by
  exact ⟨fun _ => rfl, rfl, rfl, rfl⟩

/-- Claim C3: in every run of `main`, reader-loop events occur only after
`http.ListenAndServe` has returned, and it returns only on a serve failure;
while the server is serving (`serveFails = false`) the trace contains no
reader event at all, and any reader event at position `i` is preceded by the
`serveReturned` event at an earlier position. -/
theorem C3_reader_loop_after_serve_returns :
    ∀ (serveFails : Bool) (loopEvents : List Event),
      (serveFails = false →
        (mainTrace serveFails loopEvents).filter isReaderEvent = []) ∧
      (∀ (i : Nat) (e : Event),
        (mainTrace serveFails loopEvents)[i]? = some (MEvent.readerEvent e) →
          serveFails = true ∧
          ∃ j, j < i ∧
            (mainTrace serveFails loopEvents)[j]? = some MEvent.serveReturned) := by
  intro serveFails loopEvents
  cases serveFails with
  | false =>
      constructor
      · intro _
        rw [mainTrace_false_eq]
        rfl
      · intro i e h
        rw [mainTrace_false_eq] at h
        rcases i with _ | _ | _ | _ | _ | i <;> simp at h
  | true =>
      constructor
      · intro h
        cases h
      · intro i e h
        rw [mainTrace_true_eq] at h
        refine ⟨rfl, 5, ?_, ?_⟩
        · rcases i with _ | _ | _ | _ | _ | _ | _ | i <;> simp at h
          omega
        · rw [mainTrace_true_eq]
          rfl

/-- Witness for C3: with serving failing and one abstract loop event, the
reader event sits at position 7 and `serveReturned` strictly before it;
with the server serving forever, the trace holds no reader event. -/
theorem C3_reader_loop_after_serve_returns_witness :
    (mainTrace false [Event.logRequest]).filter isReaderEvent = [] ∧
    (true = true ∧ ∃ j, j < 7 ∧
      (mainTrace true [Event.logRequest])[j]? = some MEvent.serveReturned) :=
  ⟨(C3_reader_loop_after_serve_returns false [Event.logRequest]).1 rfl,
   (C3_reader_loop_after_serve_returns true [Event.logRequest]).2 7
     Event.logRequest (by decide)⟩

/-- Counterexample for C4: with the previous value of the package-level
variable `sphincterStatus` being `FAILURE` and the sensor lines changing
while `updateSphincterStatus` runs (`tornLines`), the function performs six
pin reads, none of its four conditions fires, and it returns the cached
previous value `FAILURE` — although no instantaneous snapshot sampled during
the call maps to `FAILURE`.  So the function is not a pure, cache-free
function of one atomic snapshot. -/
theorem C4_counterexample_stale_status_on_torn_read :
    (updateSphincterStatus tornLines FAILURE).1 = FAILURE ∧
    (updateSphincterStatus tornLines FAILURE).2 = 6 ∧
    ((List.range 6).all fun t =>
      !(specDoorState (tornLines.pin0 t) (tornLines.pin1 t) == FAILURE)) = true := by
  decide

/-- Claim C4 as amended: `updateSphincterStatus` samples the status pins up
to four times each (not once atomically) and returns the cached global on a
torn read; but whenever the two sensor lines are stable for the duration of
the call it returns exactly the specified four-way mapping — low/low →
Unknown, high/high → Failure, high/low → Unlocked, low/high → Locked — for
every previous value of the global, so no fifth outcome is possible on a
stable snapshot. -/
theorem C4_stable_snapshot_matches_spec :
    ∀ (p0 p1 : Bool) (prev : SphincterStatus),
      (updateSphincterStatus (constLines p0 p1) prev).1 = specDoorState p0 p1 := by
  intro p0 p1 prev
  cases p0 <;> cases p1 <;>
    simp [updateSphincterStatus, readCond, constLines, specDoorState,
          UNKNOWN, LOCKED, UNLOCKED, FAILURE]

/-- Counterexample for C5: the token "0000" consists solely of `'0'`/`'F'`
characters (`isValid` rejects it), yet when the authorized-token table maps
"0000" to "Eve" the reader loop authorizes it: the debounce timestamp is
updated to `now` and the Open pin is pulsed.  The table lookup precedes the
well-formedness check, so an all-`'0'`/`'F'` token is not unconditionally
treated as malformed. -/
theorem C5_counterexample_table_overrides_malformed :
    isValid "0000" = false ∧
    readerLoopStep [("0000", "Eve")] 0 100 "0000" =
      (100, [Event.logHello "0000" "Eve", Event.pinHigh GoPin.OpenPin,
             Event.sleepSec 1, Event.pinLow GoPin.OpenPin]) := by
  decide

/-- Claim C5 as amended: past the debounce gate, a token consisting solely
of `'0'`/`'F'` characters that is not present in the table produces no
authorization, no debounce update, no pulse and no log; and a token present
in the table is authorized with the owner label recorded for it (this holds
whether or not the token has a character other than `'0'`/`'F'`, because the
table lookup precedes the well-formedness check). -/
theorem C5_amended_lookup_precedes_wellformedness :
    ∀ (users : List (String × String)) (ts now : Nat) (msg : String),
      5 ≤ now - ts →
      ((users.lookup msg = none → isValid msg = false →
          readerLoopStep users ts now msg = (ts, [])) ∧
       (∀ owner, users.lookup msg = some owner →
          readerLoopStep users ts now msg =
            (now, [Event.logHello msg owner, Event.pinHigh GoPin.OpenPin,
                   Event.sleepSec 1, Event.pinLow GoPin.OpenPin]))) := by
  intro users ts now msg hgate
  have hfast : ¬ (now - ts < 5) := by omega
  constructor
  · intro hnone hmal
    simp [readerLoopStep, if_neg hfast, hnone, hmal]
  · intro owner hsome
    simp [readerLoopStep, if_neg hfast, hsome]

/-- Witness for the amended C5: with table `{"A1B2" ↦ "Alice"}` and the gate
open, the malformed absent token "00F0" produces nothing, while the
well-formed present token "A1B2" is authorized as "Alice" with a pulse. -/
theorem C5_amended_lookup_precedes_wellformedness_witness :
    readerLoopStep [("A1B2", "Alice")] 0 7 "00F0" = (0, []) ∧
    readerLoopStep [("A1B2", "Alice")] 0 7 "A1B2" =
      (7, [Event.logHello "A1B2" "Alice", Event.pinHigh GoPin.OpenPin,
           Event.sleepSec 1, Event.pinLow GoPin.OpenPin]) :=
  ⟨(C5_amended_lookup_precedes_wellformedness [("A1B2", "Alice")] 0 7 "00F0"
      (by decide)).1 (by decide) (by decide),
   (C5_amended_lookup_precedes_wellformedness [("A1B2", "Alice")] 0 7 "A1B2"
      (by decide)).2 "Alice" (by decide)⟩

/-- Claim C6: the debounce gate of the reader loop.  Less than 5 seconds
after the last accepted unlock, every event is suppressed (no pulse, no
timestamp change); at or beyond 5 seconds the gate admits the event (an
authorized token pulses and records `now`, an unknown token leaves the
timestamp alone and drives no pin); and the timestamp changes only when the
gate is open and the token is authorized. -/
theorem C6_debounce_window_and_timestamp :
    ∀ (users : List (String × String)) (ts now : Nat) (msg : String),
      (now - ts < 5 →
        readerLoopStep users ts now msg =
          (ts, [Event.logLine "Triggered too fast; skipped unlock"])) ∧
      (5 ≤ now - ts → ∀ owner, users.lookup msg = some owner →
        readerLoopStep users ts now msg =
          (now, [Event.logHello msg owner, Event.pinHigh GoPin.OpenPin,
                 Event.sleepSec 1, Event.pinLow GoPin.OpenPin])) ∧
      (5 ≤ now - ts → users.lookup msg = none →
        (readerLoopStep users ts now msg).1 = ts ∧
        (readerLoopStep users ts now msg).2.filter isPinWrite = []) ∧
      ((readerLoopStep users ts now msg).1 ≠ ts →
        5 ≤ now - ts ∧ ∃ owner, users.lookup msg = some owner ∧
          (readerLoopStep users ts now msg).1 = now) := by
  intro users ts now msg
  by_cases hfast : now - ts < 5
  · refine ⟨fun _ => by simp [readerLoopStep, hfast], ?_, ?_, ?_⟩
    · intro hslow
      omega
    · intro hslow
      omega
    · intro hne
      exfalso
      apply hne
      simp [readerLoopStep, hfast]
  · have hslow : 5 ≤ now - ts := by omega
    cases hl : users.lookup msg with
    | some username =>
        refine ⟨fun hfast2 => absurd hfast2 hfast, ?_, ?_, ?_⟩
        · intro _ owner howner
          cases howner
          simp [readerLoopStep, hfast, hl]
        · intro _ hnone
          cases hnone
        · intro _
          exact ⟨hslow, username, rfl, by simp [readerLoopStep, hfast, hl]⟩
    | none =>
        refine ⟨fun hfast2 => absurd hfast2 hfast, ?_, ?_, ?_⟩
        · intro _ owner howner
          cases howner
        · intro _ _
          constructor
          · simp [readerLoopStep, hfast, hl]
          · by_cases hv : isValid msg <;>
              simp [readerLoopStep, hfast, hl, hv, isPinWrite]
        · intro hne
          exfalso
          apply hne
          simp [readerLoopStep, hfast, hl]

/-- Witness for C6: 3 seconds after the last accepted unlock the same
authorized token is suppressed; 6 seconds after it, it is admitted and
pulses; an unknown token past the gate leaves the timestamp and pins alone;
and a run that did change the timestamp was an admitted authorization. -/
theorem C6_debounce_window_and_timestamp_witness :
    readerLoopStep [("A1B2", "Alice")] 0 3 "A1B2" =
      (0, [Event.logLine "Triggered too fast; skipped unlock"]) ∧
    readerLoopStep [("A1B2", "Alice")] 6 12 "A1B2" =
      (12, [Event.logHello "A1B2" "Alice", Event.pinHigh GoPin.OpenPin,
            Event.sleepSec 1, Event.pinLow GoPin.OpenPin]) ∧
    ((readerLoopStep [("A1B2", "Alice")] 6 12 "ZZZZ").1 = 6 ∧
      (readerLoopStep [("A1B2", "Alice")] 6 12 "ZZZZ").2.filter isPinWrite = []) ∧
    (5 ≤ 12 - 6 ∧ ∃ owner, List.lookup "A1B2" [("A1B2", "Alice")] = some owner ∧
      (readerLoopStep [("A1B2", "Alice")] 6 12 "A1B2").1 = 12) :=
  ⟨(C6_debounce_window_and_timestamp [("A1B2", "Alice")] 0 3 "A1B2").1 (by decide),
   (C6_debounce_window_and_timestamp [("A1B2", "Alice")] 6 12 "A1B2").2.1
     (by decide) "Alice" (by decide),
   (C6_debounce_window_and_timestamp [("A1B2", "Alice")] 6 12 "ZZZZ").2.2.1
     (by decide) (by decide),
   (C6_debounce_window_and_timestamp [("A1B2", "Alice")] 6 12 "A1B2").2.2.2
     (by decide)⟩

/-- Claim C7: the claim says every valid frame of the byte stream yields
exactly one token.  Because `getRFIDToken` constructs a fresh
`bufio.NewReader` on every loop iteration, the bytes buffered beyond the
first end delimiter are discarded with the old reader: when one port read
delivers the two valid frames `0x02 'A' 0x03` and `0x02 'B' 0x03` in a
single chunk, only the token for the first frame is emitted and the second
frame is lost (the subsequent read then fails at the end of the modeled
prefix); delivering the very same frames as two separate chunks yields both
tokens.  So the code emits one token per frame only when no read chunk
extends past a frame end. -/
theorem C7_second_frame_in_chunk_lost :
    frameBytes [65] ++ frameBytes [66] = [2, 65, 3, 2, 66, 3] ∧
    stripDelims (frameBytes [65]) = [65] ∧
    stripDelims (frameBytes [66]) = [66] ∧
    framerRunF 2 [ReadResult.chunk (frameBytes [65] ++ frameBytes [66])] =
      ([[65]], true) ∧
    framerRunF 3 [ReadResult.chunk (frameBytes [65]),
                  ReadResult.chunk (frameBytes [66])] =
      ([[65], [66]], true) := by
  decide

/-- Claim C8: a remote unlock request drives the Open pin High, sleeps the
full 1-second dwell, drives it Low, and only then writes its response; the
handler neither reads nor writes the debounce timestamp, so the pulse is
issued for every value of `latestTimestamp` — the debounce gate does not
throttle it. -/
theorem C8_unlock_pulse_dwell_then_response :
    ∀ latestTimestamp : Nat,
      sphincterHandler "GET" "unlock" latestTimestamp =
        ([Event.logRequest, Event.pinHigh GoPin.OpenPin, Event.sleepSec 1,
          Event.pinLow GoPin.OpenPin, Event.respond "UNLOCKED"],
         latestTimestamp) := by
  intro latestTimestamp
  rfl

/-- Claim C9: a remote lock request answers the fixed acknowledgment
"LOCKED" and performs zero pin mutations, for every value of the debounce
timestamp. -/
theorem C9_lock_fixed_ack_no_pin_writes :
    ∀ latestTimestamp : Nat,
      sphincterHandler "GET" "lock" latestTimestamp =
        ([Event.logRequest, Event.respond "LOCKED"], latestTimestamp) ∧
      (sphincterHandler "GET" "lock" latestTimestamp).1.filter isPinWrite = [] := by
  intro latestTimestamp
  exact ⟨rfl, rfl⟩

/-- Claim C10: an I/O error on the credential-reader stream is fatal: at the
point of the error `ReadBytes` surfaces it, no token is emitted from the
partially accumulated frame, the goroutine panics, and no further token is
ever produced — and a complete frame before the error is still emitted
before the fatal stop. -/
theorem C10_stream_error_fatal_no_more_tokens :
    ∀ (fuel : Nat) (rest : List ReadResult) (acc : List Nat),
      readFrame (ReadResult.ioError :: rest) acc = none ∧
      framerRunF (fuel + 1) (ReadResult.ioError :: rest) = ([], true) ∧
      framerRunF (fuel + 2)
          (ReadResult.chunk (frameBytes [65]) :: ReadResult.ioError :: rest) =
        ([[65]], true) := by
  intro fuel rest acc
  exact ⟨rfl, rfl, rfl⟩

end Wishbone
